import Mathlib

/-!
Shallow embedding of the session/capacity core of the fdvg repository:
the connection lifecycle (`WireGuardService.connect/disconnect/updateStats`),
the server model (`serverSchema` methods and statics), the scoring and
selection logic (`ServerService.calculateServerScore/getOptimalServer`),
the health-monitoring job (`monitorServerHealth`), and the WireGuard
config formatter (`formatWireGuardConfig`).

Numbers are modelled exactly: JavaScript numeric comparisons on loads,
pings and capacity thresholds use `Rat`; occupancy counters use `Int`
because the code can drive them negative; byte totals use `Int`.
-/

namespace Fdvg

/-- `stats.healthStatus` enum of `serverSchema`. -/
inductive HealthStatus
  | healthy
  | degraded
  | offline
deriving DecidableEq, Repr

/-- `status` enum of `connectionSchema`. -/
inductive ConnStatus
  | connecting
  | connected
  | disconnecting
  | disconnected
  | error
  | timeout
deriving DecidableEq, Repr

/-- A server document (the fields of `serverSchema` the core logic reads). -/
structure Server where
  sid : Nat
  active : Bool
  healthStatus : HealthStatus
  load : ℚ
  ping : ℚ
  currentUsers : Int
  maxUsers : Nat
  isPremium : Bool
deriving DecidableEq, Repr

/-- A connection document (the fields of `connectionSchema` the core logic reads). -/
structure Connection where
  cid : Nat
  userId : Nat
  serverId : Nat
  status : ConnStatus
  upload : Int
  download : Int
  total : Int
  speedUpload : ℚ
  speedDownload : ℚ
  speedPing : ℚ
  startTime : Int
  endTime : Option Int
  duration : Option Int
  errorCode : Option String
deriving DecidableEq, Repr

/-- The database state the service operates on. -/
structure St where
  servers : List Server
  conns : List Connection
  nextId : Nat
deriving DecidableEq, Repr

/-- `Server.findById`. -/
def findServer (st : St) (sid : Nat) : Option Server :=
  st.servers.find? (fun s => s.sid == sid)

/-- `Connection.findById`. -/
def findConn (st : St) (cid : Nat) : Option Connection :=
  st.conns.find? (fun c => c.cid == cid)

/-- The status filter `{ $in: ['connected', 'connecting'] }` used by
`findActiveByUser` and `getServerConnectionsCount`. -/
def isActiveStatus (s : ConnStatus) : Bool :=
  s == .connected || s == .connecting

/-- `connectionSchema.statics.findActiveByUser`. -/
def findActiveByUser (st : St) (u : Nat) : Option Connection :=
  st.conns.find? (fun c => c.userId == u && isActiveStatus c.status)

/-- `connectionSchema.statics.getServerConnectionsCount`. -/
def getServerConnectionsCount (st : St) (sid : Nat) : Nat :=
  (st.conns.filter (fun c => c.serverId == sid && isActiveStatus c.status)).length

/-- `serverSchema.methods.isAvailable`. -/
def Server.isAvailable (s : Server) : Bool :=
  s.active && s.healthStatus == .healthy
    && decide (s.currentUsers < (s.maxUsers : Int)) && decide (s.load < 90)

/-- Save a modified connection document back into the state
(mongoose `document.save` keyed by `_id`). -/
def setConn (st : St) (c : Connection) : St :=
  { st with conns := st.conns.map (fun x => if x.cid == c.cid then c else x) }

/-- Apply an update to the server with the given id
(`Server.findByIdAndUpdate`). -/
def updServer (st : St) (sid : Nat) (f : Server → Server) : St :=
  { st with servers := st.servers.map (fun s => if s.sid == sid then f s else s) }

/-- `WireGuardService.disconnect`: finds the connection, checks ownership
only when a user id is supplied, unconditionally marks it `disconnected`
and decrements the server user counter by one with no floor. -/
def disconnect (st : St) (connId : Nat) (userId : Option Nat) (now : Int) :
    Except String St :=
  match findConn st connId with
  | none => .error "Disconnection failed: Connection not found"
  | some conn =>
    if (match userId with
        | some u => conn.userId != u
        | none => false) then
      .error "Disconnection failed: Access denied"
    else
      let dur := Int.fdiv (now - conn.startTime) 1000
      let conn1 := { conn with
        status := ConnStatus.disconnected, endTime := some now, duration := some dur }
      let st1 := setConn st conn1
      .ok (updServer st1 conn.serverId (fun s => { s with currentUsers := s.currentUsers - 1 }))

/-- The connection record created by `WireGuardService.connect`: status
`connecting`, zeroed counters, the given start time. -/
def newConn (cid u sid : Nat) (now : Int) : Connection :=
  { cid := cid, userId := u, serverId := sid, status := ConnStatus.connecting,
    upload := 0, download := 0, total := 0,
    speedUpload := 0, speedDownload := 0, speedPing := 0,
    startTime := now, endTime := none, duration := none, errorCode := none }

/-- `WireGuardService.connect`: validates the server, supersedes the
active connection of the user if one exists, gates on the count of
active connections against `maxUsers * 0.95`, and creates a new
`connecting` connection. The server occupancy counter is not touched
here; it is incremented later by `settle`. -/
def connect (st : St) (userId serverId : Nat) (now : Int) : Except String St :=
  match findServer st serverId with
  | none => .error "Connection failed: Server not found"
  | some server =>
    if !server.active then .error "Connection failed: Server is not active"
    else if !server.isAvailable then
      .error "Connection failed: Server is not available for new connections"
    else
      let step : Except String St :=
        match findActiveByUser st userId with
        | some ac => disconnect st ac.cid none now
        | none => .ok st
      match step with
      | .error e => .error ("Connection failed: " ++ e)
      | .ok st1 =>
        if ((getServerConnectionsCount st1 serverId : ℚ) ≥ (server.maxUsers : ℚ) * (95 / 100)) then
          .error "Connection failed: Server is at capacity"
        else
          .ok { st1 with
                conns := st1.conns ++ [newConn st1.nextId userId server.sid now],
                nextId := st1.nextId + 1 }

/-- The `setTimeout` callback inside `WireGuardService.connect`: marks the
connection `connected` and increments the server user counter by one. -/
def settle (st : St) (connId : Nat) : St :=
  match findConn st connId with
  | none => st
  | some conn =>
    let st1 := setConn st { conn with status := ConnStatus.connected }
    updServer st1 conn.serverId (fun s => { s with currentUsers := s.currentUsers + 1 })

/-- `connectionSchema.methods.disconnect`: moves a `connected` or
`connecting` document to `disconnecting`. -/
def modelDisconnect (st : St) (connId : Nat) (now : Int) : St :=
  match findConn st connId with
  | none => st
  | some conn =>
    if isActiveStatus conn.status then
      setConn st { conn with status := ConnStatus.disconnecting, endTime := some now }
    else st

/-- `connectionSchema.methods.markError`. -/
def markError (st : St) (connId : Nat) (code : String) (now : Int) : St :=
  match findConn st connId with
  | none => st
  | some conn =>
    setConn st { conn with
      status := ConnStatus.error, errorCode := some code, endTime := some now }

/-- The `stats` argument of `WireGuardService.updateStats`; fields the
client did not send are `none`. -/
structure StatsInput where
  uploadSpeed : Option ℚ
  downloadSpeed : Option ℚ
  ping : Option ℚ
  upload : Option Int
  download : Option Int
deriving DecidableEq, Repr

/-- JavaScript `x || d` for a possibly-missing number: `undefined` and `0`
are both falsy and fall back to the default. -/
def jsOrQ (o : Option ℚ) (d : ℚ) : ℚ :=
  match o with
  | some v => if v = 0 then d else v
  | none => d

/-- `WireGuardService.updateStats`: requires an existing connection owned
by the caller in the `connected` status; then applies `updateSpeed` and
`addDataTransfer` (bytes are added to the stored totals, the pre-save
hook recomputes `total`). Returns the resulting state and an error
message when one of the checks failed before any mutation. -/
def updateStats (st : St) (connId : Nat) (stats : StatsInput) (userId : Nat) :
    St × Option String :=
  match findConn st connId with
  | none => (st, some "Failed to update stats: Connection not found")
  | some conn =>
    if conn.userId != userId then (st, some "Failed to update stats: Access denied")
    else if conn.status != ConnStatus.connected then
      (st, some "Failed to update stats: Connection is not active")
    else
      let conn1 :=
        if stats.uploadSpeed.isSome || stats.downloadSpeed.isSome || stats.ping.isSome then
          { conn with
            speedUpload := jsOrQ stats.uploadSpeed conn.speedUpload,
            speedDownload := jsOrQ stats.downloadSpeed conn.speedDownload,
            speedPing := jsOrQ stats.ping conn.speedPing }
        else conn
      let conn2 :=
        if stats.upload.isSome || stats.download.isSome then
          let up := conn1.upload + stats.upload.getD 0
          let dn := conn1.download + stats.download.getD 0
          { conn1 with upload := up, download := dn, total := up + dn }
        else conn1
      (setConn st conn2, none)

/-- The `metrics` argument of `ServerService.updateServerMetrics`. -/
structure MetricsInput where
  load : Option ℚ
  ping : Option ℚ
  currentUsers : Option Int
  healthStatus : Option HealthStatus
deriving DecidableEq, Repr

/-- `ServerService.updateServerMetrics`: clamps load into [0,100], ping to
at least 0, currentUsers into [0, maxUsers], and overwrites healthStatus
when one is supplied. -/
def updateServerMetrics (st : St) (sid : Nat) (m : MetricsInput) : Except String St :=
  match findServer st sid with
  | none => .error "Server not found"
  | some server =>
    let s1 : Server := { server with
      load := match m.load with
        | some l => max 0 (min 100 l)
        | none => server.load,
      ping := match m.ping with
        | some p => max 0 p
        | none => server.ping,
      currentUsers := match m.currentUsers with
        | some c => max 0 (min (server.maxUsers : Int) c)
        | none => server.currentUsers,
      healthStatus := match m.healthStatus with
        | some h => h
        | none => server.healthStatus }
    .ok (updServer st sid (fun _ => s1))

/-- Outcome of the simulated health probe in `monitorServerHealth`: either
the probe ran (returning a health verdict, a load and a ping) or it threw. -/
inductive ProbeOutcome
  | ok (isHealthy : Bool) (load ping : ℚ)
  | failed
deriving DecidableEq, Repr

/-- One server step of `monitorServerHealth`: on a successful probe it
writes load, ping, the health verdict, and the live active-connection
count; when the probe throws, it only forces `offline` and load 100.
Connections are never touched. -/
def healthSweepStep (st : St) (sid : Nat) (o : ProbeOutcome) : St :=
  match o with
  | .ok isHealthy load ping =>
    (updateServerMetrics st sid {
      load := some load, ping := some ping,
      currentUsers := some (getServerConnectionsCount st sid : Int),
      healthStatus := some (if isHealthy then HealthStatus.healthy else HealthStatus.offline)
      }).toOption.getD st
  | .failed =>
    (updateServerMetrics st sid {
      load := some 100, ping := none, currentUsers := none,
      healthStatus := some HealthStatus.offline }).toOption.getD st

/-- `serverSchema.methods.updateLoad`: clamps the new load into [0,100]
and recomputes the health status; the `load > 95` test sits behind the
`load > 90` test. -/
def Server.updateLoad (s : Server) (newLoad : ℚ) : Server :=
  let l := max 0 (min 100 newLoad)
  let hs :=
    if l > 90 then HealthStatus.degraded
    else if l > 95 then HealthStatus.offline
    else HealthStatus.healthy
  { s with load := l, healthStatus := hs }

/-- JavaScript `Math.round`: round half toward positive infinity. -/
def jsRound (x : ℚ) : Int := Int.floor (x + 1 / 2)

/-- `ServerService.calculateServerScore`. -/
def calculateServerScore (s : Server) : Int :=
  let loadScore := max 0 (100 - s.load)
  let pingScore := if s.ping > 0 then max 0 (100 - s.ping / 2) else 50
  let capacityScore := max 0 (100 - ((s.currentUsers : ℚ) / (s.maxUsers : ℚ)) * 100)
  jsRound (loadScore * (4 / 10) + pingScore * (4 / 10) + capacityScore * (2 / 10))

/-- The strict lexicographic order `{ load: 1, ping: 1, currentUsers: 1 }`
used by the sort in `ServerService.getOptimalServer`. -/
def lexLt (a b : Server) : Prop :=
  a.load < b.load ∨ (a.load = b.load ∧
    (a.ping < b.ping ∨ (a.ping = b.ping ∧ a.currentUsers < b.currentUsers)))

instance (a b : Server) : Decidable (lexLt a b) := by
  unfold lexLt; infer_instance

/-- Keep the lexicographically smaller of the accumulator and the next
candidate, the accumulator winning ties. -/
def pickBetter : Option Server → Server → Option Server
  | none, s => some s
  | some b, s => if lexLt s b then some s else some b

/-- The selection step of `ServerService.getOptimalServer`: sort the
candidate set ascending by load, then ping, then currentUsers, and take
the first element; fail when the candidate set is empty. -/
def getOptimalServer (candidates : List Server) : Except String Server :=
  match candidates.foldl pickBetter none with
  | some s => .ok s
  | none => .error "No optimal server found"

/-- Input of `formatWireGuardConfig`. -/
structure WgConfig where
  privateKey : String
  address : String
  dns : List String
  serverPublicKey : String
  endpoint : String
  allowedIPs : List String
  persistentKeepalive : Nat
  preSharedKey : Option String
deriving DecidableEq, Repr

/-- `formatWireGuardConfig` from `utils/crypto.js`: the fixed line list,
with the PresharedKey line pushed at the end when present, joined by
newlines. -/
def formatWireGuardConfig (c : WgConfig) : String :=
  let lines : List String := [
    "[Interface]",
    "PrivateKey = " ++ c.privateKey,
    "Address = " ++ c.address,
    "DNS = " ++ String.intercalate ", " c.dns,
    "",
    "[Peer]",
    "PublicKey = " ++ c.serverPublicKey,
    "Endpoint = " ++ c.endpoint,
    "AllowedIPs = " ++ String.intercalate ", " c.allowedIPs,
    "PersistentKeepalive = " ++ toString c.persistentKeepalive]
  let lines :=
    match c.preSharedKey with
    | some k => lines ++ ["PresharedKey = " ++ k]
    | none => lines
  String.intercalate "\n" lines

/-! Spec-side definitions, used only to state properties and refinement
comparisons; each follows the wording of the specification. -/

/-- Membership in the non-terminal state set named by the spec invariant:
{Connecting, Connected, Disconnecting}. -/
def isNonTerminal (s : ConnStatus) : Bool :=
  s == .connecting || s == .connected || s == .disconnecting

/-- Number of sessions of a client that are in a non-terminal state. -/
def nonTerminalCount (st : St) (u : Nat) : Nat :=
  (st.conns.filter (fun c => c.userId == u && isNonTerminal c.status)).length

/-- Number of sessions of a client in {connecting, connected}, the set the
code actually treats as active. -/
def activeCount (st : St) (u : Nat) : Nat :=
  (st.conns.filter (fun c => c.userId == u && isActiveStatus c.status)).length

/-- The selection score exactly as the spec words it:
`0.4×(100−load) + 0.4×(100−min(ping,200)/2) + 0.2×(100−100×occupancy/maxCapacity)`. -/
def specScore (s : Server) : ℚ :=
  (4 / 10) * (100 - s.load) + (4 / 10) * (100 - (min s.ping 200) / 2)
    + (2 / 10) * (100 - 100 * ((s.currentUsers : ℚ) / (s.maxUsers : ℚ)))

/-- The interface section of the config payload as the spec describes it:
fields PrivateKey, Address, DNS in that order. -/
def specInterfaceSection (c : WgConfig) : List String :=
  ["[Interface]",
   "PrivateKey = " ++ c.privateKey,
   "Address = " ++ c.address,
   "DNS = " ++ String.intercalate ", " c.dns]

/-- The peer section of the config payload as the spec describes it:
fields PublicKey, Endpoint, AllowedIPs, PersistentKeepalive in that order,
followed by an optional trailing PresharedKey. -/
def specPeerSection (c : WgConfig) : List String :=
  ["[Peer]",
   "PublicKey = " ++ c.serverPublicKey,
   "Endpoint = " ++ c.endpoint,
   "AllowedIPs = " ++ String.intercalate ", " c.allowedIPs,
   "PersistentKeepalive = " ++ toString c.persistentKeepalive]
    ++ (c.preSharedKey.map (fun k => "PresharedKey = " ++ k)).toList

/-- No session of the state carries the `timeout` status. -/
def timeoutFree (st : St) : Prop :=
  ∀ c ∈ st.conns, c.status ≠ ConnStatus.timeout

/-- The operations of the service layer that touch the database state. -/
inductive Op
  | opConnect (u sid : Nat) (now : Int)
  | opDisconnect (cid : Nat) (u : Option Nat) (now : Int)
  | opSettle (cid : Nat)
  | opModelDisconnect (cid : Nat) (now : Int)
  | opMarkError (cid : Nat) (code : String) (now : Int)
  | opUpdateStats (cid : Nat) (stats : StatsInput) (u : Nat)
  | opHealthSweep (sid : Nat) (o : ProbeOutcome)
  | opUpdateMetrics (sid : Nat) (m : MetricsInput)

/-- Apply one operation; a thrown error leaves the state unchanged. -/
def applyOp (st : St) : Op → St
  | .opConnect u sid now => (connect st u sid now).toOption.getD st
  | .opDisconnect cid u now => (disconnect st cid u now).toOption.getD st
  | .opSettle cid => settle st cid
  | .opModelDisconnect cid now => modelDisconnect st cid now
  | .opMarkError cid code now => markError st cid code now
  | .opUpdateStats cid stats u => (updateStats st cid stats u).1
  | .opHealthSweep sid o => healthSweepStep st sid o
  | .opUpdateMetrics sid m => (updateServerMetrics st sid m).toOption.getD st

/-! Concrete states used to instantiate and to refute the claims. -/

/-- A healthy idle server with capacity 10. -/
def srvA : Server := ⟨1, true, HealthStatus.healthy, 0, 0, 0, 10, false⟩

/-- The same server holding one user. -/
def srvA1 : Server := ⟨1, true, HealthStatus.healthy, 0, 0, 1, 10, false⟩

/-- The same server holding three users. -/
def srvA3 : Server := ⟨1, true, HealthStatus.healthy, 0, 0, 3, 10, false⟩

/-- The same server holding nine users. -/
def srvA9 : Server := ⟨1, true, HealthStatus.healthy, 0, 0, 9, 10, false⟩

/-- An active, degraded (but not offline) server with free capacity. -/
def srvDeg : Server := ⟨1, true, HealthStatus.degraded, 0, 0, 0, 10, false⟩

/-- A server with five users and moderate load. -/
def srvU5 : Server := ⟨1, true, HealthStatus.healthy, 20, 10, 5, 10, false⟩

/-- A connected session of user `i` on server 1. -/
def mkConnected (i : Nat) : Connection :=
  ⟨i, i, 1, ConnStatus.connected, 0, 0, 0, 0, 0, 0, 0, none, none, none⟩

/-- A session of user 7 stuck in `disconnecting`. -/
def cDiscing : Connection :=
  ⟨1, 7, 1, ConnStatus.disconnecting, 0, 0, 0, 0, 0, 0, 0, none, none, none⟩

/-- A connected session of user 7. -/
def cConn7 : Connection :=
  ⟨1, 7, 1, ConnStatus.connected, 0, 0, 0, 0, 0, 0, 0, none, none, none⟩

/-- A session of user 7 already fully disconnected. -/
def cDisced7 : Connection :=
  ⟨1, 7, 1, ConnStatus.disconnected, 0, 0, 0, 0, 0, 0, 0, some 100, some 0, none⟩

/-- A connecting session of user 7. -/
def cConnecting7 : Connection :=
  ⟨1, 7, 1, ConnStatus.connecting, 0, 0, 0, 0, 0, 0, 0, none, none, none⟩

/-- A connected session of user 2 with transferred bytes on record. -/
def cConn2 : Connection :=
  ⟨1, 2, 1, ConnStatus.connected, 100, 200, 300, 0, 0, 0, 0, none, none, none⟩

/-- A disconnected session of user 2 with transferred bytes on record. -/
def cDis2 : Connection :=
  ⟨1, 2, 1, ConnStatus.disconnected, 100, 200, 300, 0, 0, 0, 0, none, none, none⟩

/-- State with a free healthy server and no sessions. -/
def stIdle : St := ⟨[srvA], [], 1⟩

/-- State with a degraded server and no sessions. -/
def stDeg : St := ⟨[srvDeg], [], 1⟩

/-- State where user 7 holds a `disconnecting` session. -/
def stDiscing : St := ⟨[srvA], [cDiscing], 2⟩

/-- State where user 7 holds a `connected` session, server counter 1. -/
def stOneConnected : St := ⟨[srvA1], [cConn7], 2⟩

/-- State where user 7 holds a `connecting` session. -/
def stConnecting : St := ⟨[srvA], [cConnecting7], 2⟩

/-- State where the only session is already disconnected, server counter 3. -/
def stTerminal : St := ⟨[srvA3], [cDisced7], 2⟩

/-- The record of `cConn7` after a full disconnect at time 5000. -/
def cConn7dis : Connection :=
  ⟨1, 7, 1, ConnStatus.disconnected, 0, 0, 0, 0, 0, 0, 0, some 5000, some 5, none⟩

/-- State after disconnecting the session of `stOneConnected`. -/
def stHalf : St := ⟨[srvA], [cConn7dis], 2⟩

/-- State after a superseding connect on `stOneConnected`. -/
def stAfterSuper : St := ⟨[srvA], [cConn7dis, newConn 2 7 1 5000], 3⟩

/-- State with nine connected sessions on a ten-slot server. -/
def stNine : St :=
  ⟨[srvA9],
   [mkConnected 1, mkConnected 2, mkConnected 3, mkConnected 4, mkConnected 5,
    mkConnected 6, mkConnected 7, mkConnected 8, mkConnected 9], 10⟩

/-- State with five connected sessions on a ten-slot server. -/
def stFive : St :=
  ⟨[srvU5],
   [mkConnected 1, mkConnected 2, mkConnected 3, mkConnected 4, mkConnected 5], 6⟩

/-- State with a connected session of user 2, for metrics updates. -/
def stMetrics : St := ⟨[srvA], [cConn2], 2⟩

/-- State with a disconnected session of user 2, for metrics updates. -/
def stMetricsDis : St := ⟨[srvA], [cDis2], 2⟩

/-- Metrics payload carrying only byte deltas. -/
def statsBytes : StatsInput := ⟨none, none, none, some 5, some 7⟩

/-- Server with every spec score component unclamped and nonzero ping. -/
def s4w : Server := ⟨1, true, HealthStatus.healthy, 20, 100, 3, 10, false⟩

/-- Server with zero ping, where the code scores the ping component 50. -/
def s4z : Server := ⟨1, true, HealthStatus.healthy, 0, 0, 0, 10, false⟩

/-- Candidate with the lowest load but a poor overall score. -/
def s4a : Server := ⟨1, true, HealthStatus.healthy, 10, 190, 8, 10, false⟩

/-- Candidate with a slightly higher load but the best overall score. -/
def s4b : Server := ⟨2, true, HealthStatus.healthy, 11, 10, 0, 10, false⟩

/-! Helper lemmas about the embedded operations. -/

lemma active_of_isAvailable {s : Server} (h : s.isAvailable = true) : s.active = true := by
  unfold Server.isAvailable at h
  simp only [Bool.and_eq_true] at h
  exact h.1.1.1

lemma find?_map_stable {α : Type} (f : α → α) (p : α → Bool) (l : List α)
    (h : ∀ x, p (f x) = p x) : (l.map f).find? p = (l.find? p).map f := by
  rw [List.find?_map]
  have hpf : p ∘ f = p := funext h
  rw [hpf]

lemma findConn_setConn (st : St) (c : Connection) (q : Nat) :
    findConn (setConn st c) q
      = (findConn st q).map (fun x => if x.cid == c.cid then c else x) := by
  unfold findConn setConn
  apply find?_map_stable
  intro x
  by_cases h : x.cid == c.cid
  · have hx : x.cid = c.cid := by simpa using h
    simp [h, hx]
  · simp [h]

lemma conns_setConn (st : St) (c : Connection) :
    (setConn st c).conns = st.conns.map (fun x => if x.cid == c.cid then c else x) := rfl

lemma servers_setConn (st : St) (c : Connection) : (setConn st c).servers = st.servers := rfl

lemma conns_updServer (st : St) (sid : Nat) (f : Server → Server) :
    (updServer st sid f).conns = st.conns := rfl

lemma findConn_updServer (st : St) (sid : Nat) (f : Server → Server) (q : Nat) :
    findConn (updServer st sid f) q = findConn st q := rfl

lemma findServer_setConn (st : St) (c : Connection) (q : Nat) :
    findServer (setConn st c) q = findServer st q := rfl

lemma findServer_updServer (st : St) (sid q : Nat) (f : Server → Server)
    (hstable : ∀ x : Server, ((if x.sid == sid then f x else x).sid == q) = (x.sid == q)) :
    findServer (updServer st sid f) q
      = (findServer st q).map (fun x => if x.sid == sid then f x else x) := by
  unfold findServer updServer
  exact find?_map_stable _ _ _ hstable

lemma findServer_updServer_keep (st : St) (sid q : Nat) (f : Server → Server)
    (hf : ∀ s, (f s).sid = s.sid) :
    findServer (updServer st sid f) q
      = (findServer st q).map (fun x => if x.sid == sid then f x else x) := by
  apply findServer_updServer
  intro x
  by_cases h : x.sid == sid
  · simp [h, hf]
  · simp [h]

/-- C9: the formatted WireGuard config payload is the newline-joined
interface section followed by a separator line and the peer section, the
fields rendered in the fixed order the spec gives, with the optional
PresharedKey trailing. -/
theorem formatWireGuardConfig_spec (c : WgConfig) :
    formatWireGuardConfig c
      = String.intercalate "\n" (specInterfaceSection c ++ [""] ++ specPeerSection c) := by
  cases h : c.preSharedKey <;>
    simp [formatWireGuardConfig, specInterfaceSection, specPeerSection, h]

/-- C10: updateLoad sets healthStatus to degraded exactly when the clamped
load exceeds 90 and to healthy otherwise; the offline branch sits behind
the weaker test and is unreachable, so updateLoad never yields offline. -/
theorem updateLoad_health (s : Server) (l : ℚ) :
    ((Server.updateLoad s l).healthStatus
        = if max 0 (min 100 l) > 90 then HealthStatus.degraded else HealthStatus.healthy)
      ∧ (Server.updateLoad s l).healthStatus ≠ HealthStatus.offline := by
  unfold Server.updateLoad
  by_cases h : max 0 (min 100 l) > 90
  · simp [h]
  · have h95 : ¬ (max 0 (min 100 l) > 95) := fun hc => h (lt_trans (by norm_num) hc)
    simp [h, h95]

lemma disconnect_found (st : St) (cid : Nat) (uOpt : Option Nat) (now : Int) (conn : Connection)
    (hf : findConn st cid = some conn)
    (hown : (match uOpt with | some uu => conn.userId != uu | none => false) = false) :
    disconnect st cid uOpt now =
      .ok (updServer
            (setConn st
              { conn with
                status := ConnStatus.disconnected, endTime := some now,
                duration := some (Int.fdiv (now - conn.startTime) 1000) })
            conn.serverId (fun s => { s with currentUsers := s.currentUsers - 1 })) := by
  unfold disconnect
  rw [hf]
  simp only [hown]
  rfl

lemma disconnect_ok_inv (st : St) (cid : Nat) (uOpt : Option Nat) (now : Int) (st' : St)
    (h : disconnect st cid uOpt now = .ok st') :
    ∃ conn, findConn st cid = some conn ∧
      st' = updServer
              (setConn st
                { conn with
                  status := ConnStatus.disconnected, endTime := some now,
                  duration := some (Int.fdiv (now - conn.startTime) 1000) })
              conn.serverId (fun s => { s with currentUsers := s.currentUsers - 1 }) := by
  unfold disconnect at h
  split at h
  · exact absurd h (by simp)
  · next conn heq =>
    split at h
    · exact absurd h (by simp)
    · refine ⟨conn, heq, ?_⟩
      injection h with h'
      exact h'.symm

/-- C3: code bug witness. A server holding one connected session: the
first disconnect brings the counter to 0, a second disconnect of the
same (already disconnected) session decrements again to -1, violating
the schema floor of 0. -/
theorem release_drives_occupancy_negative :
    ∃ st1 st2,
      disconnect stOneConnected 1 none 5000 = .ok st1 ∧
      (findServer st1 1).map (fun s => s.currentUsers) = some 0 ∧
      (findConn st1 1).map (fun c => c.status) = some ConnStatus.disconnected ∧
      disconnect st1 1 none 9000 = .ok st2 ∧
      (findServer st2 1).map (fun s => s.currentUsers) = some (-1) := by
  refine ⟨_, _, rfl, ?_, ?_, rfl, ?_⟩ <;> rfl

/-- C7: counterexample. Disconnect on an already terminal (disconnected)
session is not a no-op: the server counter is decremented again and the
session record is rewritten, so the state changes. -/
theorem disconnect_terminal_not_noop :
    ∃ st', disconnect stTerminal 1 (some 7) 500 = .ok st' ∧
      (findServer st' 1).map (fun s => s.currentUsers) = some 2 ∧
      st' ≠ stTerminal := by
  refine ⟨_, rfl, rfl, ?_⟩
  intro hEq
  have : (findServer stTerminal 1).map (fun s => s.currentUsers) = some 2 := by
    rw [← hEq]; rfl
  simp [stTerminal, findServer, srvA3] at this

lemma updateServerMetrics_found (st : St) (sid : Nat) (m : MetricsInput) (server : Server)
    (hs : findServer st sid = some server) :
    updateServerMetrics st sid m = .ok (updServer st sid (fun _ => { server with
      load := match m.load with
        | some l => max 0 (min 100 l)
        | none => server.load,
      ping := match m.ping with
        | some p => max 0 p
        | none => server.ping,
      currentUsers := match m.currentUsers with
        | some c => max 0 (min (server.maxUsers : Int) c)
        | none => server.currentUsers,
      healthStatus := match m.healthStatus with
        | some h => h
        | none => server.healthStatus })) := by
  unfold updateServerMetrics
  rw [hs]

lemma conns_updateServerMetrics (st : St) (sid : Nat) (m : MetricsInput) (st' : St)
    (h : updateServerMetrics st sid m = .ok st') : st'.conns = st.conns := by
  unfold updateServerMetrics at h
  split at h
  · exact absurd h (by simp)
  · injection h with h'
    rw [← h']
    rfl

lemma conns_usm_getD (st : St) (sid : Nat) (m : MetricsInput) :
    ((updateServerMetrics st sid m).toOption.getD st).conns = st.conns := by
  cases h : updateServerMetrics st sid m with
  | error e => simp [Except.toOption]
  | ok st' =>
    simpa [Except.toOption] using conns_updateServerMetrics st sid m st' h

/-- C6 (amended): the health sweep never touches connection records, and
when the probe reports the node unhealthy it overwrites the server with
the clamped observed load and ping, sets healthStatus offline, and sets
currentUsers to the clamped live count of active sessions, not to 0. -/
theorem healthSweep_effect :
    (∀ (st : St) (sid : Nat) (o : ProbeOutcome),
      (healthSweepStep st sid o).conns = st.conns) ∧
    (∀ (st : St) (sid : Nat) (server : Server), findServer st sid = some server →
      ∀ load ping : ℚ,
        findServer (healthSweepStep st sid (.ok false load ping)) sid
          = some { server with
              load := max 0 (min 100 load),
              ping := max 0 ping,
              currentUsers := max 0 (min (server.maxUsers : Int)
                (getServerConnectionsCount st sid : Int)),
              healthStatus := HealthStatus.offline }) := by
  constructor
  · intro st sid o
    cases o with
    | ok ih ld pg => exact conns_usm_getD st sid _
    | failed => exact conns_usm_getD st sid _
  · intro st sid server hs load ping
    have hsid : server.sid = sid := by
      have := List.find?_some hs
      simpa using this
    have hstep : healthSweepStep st sid (.ok false load ping)
        = (updateServerMetrics st sid
            { load := some load, ping := some ping,
              currentUsers := some (getServerConnectionsCount st sid : Int),
              healthStatus := some (if false then HealthStatus.healthy
                else HealthStatus.offline) }).toOption.getD st := rfl
    rw [updateServerMetrics_found st sid _ server hs] at hstep
    simp only [Except.toOption, Option.getD_some] at hstep
    rw [hstep, findServer_updServer]
    · rw [hs]
      simp [hsid]
    · intro x
      by_cases hx : x.sid == sid
      · simp [hx, hsid]
      · simp [hx]

/-- C6: witness instantiating the sweep theorem on the five-session
server marked unhealthy by the probe. -/
theorem healthSweep_effect_witness :
    findServer stFive 1 = some srvU5 ∧
    (healthSweepStep stFive 1 (.ok false 50 10)).conns = stFive.conns ∧
    findServer (healthSweepStep stFive 1 (.ok false 50 10)) 1
      = some { srvU5 with
          load := max 0 (min 100 50), ping := max 0 10,
          currentUsers := max 0 (min (srvU5.maxUsers : Int)
            (getServerConnectionsCount stFive 1 : Int)),
          healthStatus := HealthStatus.offline } :=
  ⟨rfl, healthSweep_effect.1 stFive 1 (.ok false 50 10),
   healthSweep_effect.2 stFive 1 srvU5 rfl 50 10⟩

/-- C6: counterexample. The health sweep marking the five-session server
offline leaves all five sessions untouched (none becomes `error`) and
sets the server user counter to the live count 5, not to 0. -/
theorem offline_sweep_does_not_terminate_sessions :
    (healthSweepStep stFive 1 (.ok false 50 10)).conns = stFive.conns ∧
    ((healthSweepStep stFive 1 (.ok false 50 10)).conns.filter
        (fun c => c.status == ConnStatus.error)).length = 0 ∧
    (findServer (healthSweepStep stFive 1 (.ok false 50 10)) 1).map (fun s => s.healthStatus)
      = some HealthStatus.offline ∧
    (findServer (healthSweepStep stFive 1 (.ok false 50 10)) 1).map (fun s => s.currentUsers)
      = some 5 := ⟨rfl, rfl, rfl, rfl⟩

lemma updateStats_connected (st : St) (cid u : Nat) (stats : StatsInput) (conn : Connection)
    (hf : findConn st cid = some conn) (hu : conn.userId = u)
    (hc : conn.status = ConnStatus.connected) :
    ∃ c : Connection, updateStats st cid stats u = (setConn st c, none) ∧
      c.cid = conn.cid ∧
      ((stats.upload.isSome || stats.download.isSome) = true →
        c.upload = conn.upload + stats.upload.getD 0 ∧
        c.download = conn.download + stats.download.getD 0 ∧
        c.total = conn.upload + stats.upload.getD 0 + (conn.download + stats.download.getD 0)) ∧
      ((stats.upload.isSome || stats.download.isSome) = false →
        c.upload = conn.upload ∧ c.download = conn.download ∧ c.total = conn.total) := by
  have hbne : (conn.userId != u) = false := by simp [hu]
  have hsne : (conn.status != ConnStatus.connected) = false := by simp [hc]
  by_cases h1 : (stats.uploadSpeed.isSome || stats.downloadSpeed.isSome || stats.ping.isSome) = true
  · by_cases h2 : (stats.upload.isSome || stats.download.isSome) = true
    · refine ⟨{ conn with
          speedUpload := jsOrQ stats.uploadSpeed conn.speedUpload,
          speedDownload := jsOrQ stats.downloadSpeed conn.speedDownload,
          speedPing := jsOrQ stats.ping conn.speedPing,
          upload := conn.upload + stats.upload.getD 0,
          download := conn.download + stats.download.getD 0,
          total := conn.upload + stats.upload.getD 0
            + (conn.download + stats.download.getD 0) }, ?_, rfl, ?_, ?_⟩
      · simp only [updateStats, hf, hbne, hsne, h1, h2]
        simp
      · intro hb
        exact ⟨rfl, rfl, rfl⟩
      · intro hb
        rw [h2] at hb
        cases hb
    · refine ⟨{ conn with
          speedUpload := jsOrQ stats.uploadSpeed conn.speedUpload,
          speedDownload := jsOrQ stats.downloadSpeed conn.speedDownload,
          speedPing := jsOrQ stats.ping conn.speedPing }, ?_, rfl, ?_, ?_⟩
      · simp only [updateStats, hf, hbne, hsne, h1]
        simp [h2]
      · intro hb
        exact absurd hb h2
      · intro hb
        exact ⟨rfl, rfl, rfl⟩
  · by_cases h2 : (stats.upload.isSome || stats.download.isSome) = true
    · refine ⟨{ conn with
          upload := conn.upload + stats.upload.getD 0,
          download := conn.download + stats.download.getD 0,
          total := conn.upload + stats.upload.getD 0
            + (conn.download + stats.download.getD 0) }, ?_, rfl, ?_, ?_⟩
      · simp only [updateStats, hf, hbne, hsne, h2]
        simp [h1]
      · intro hb
        exact ⟨rfl, rfl, rfl⟩
      · intro hb
        rw [h2] at hb
        cases hb
    · refine ⟨conn, ?_, rfl, ?_, ?_⟩
      · simp only [updateStats, hf, hbne, hsne]
        simp [h1, h2]
      · intro hb
        exact absurd hb h2
      · intro hb
        exact ⟨rfl, rfl, rfl⟩

/-- C8: updateStats fails without mutating the state whenever the session
is not connected; on a connected session the transferred-byte deltas are
added to the stored totals and never overwritten. -/
theorem updateStats_adds_bytes :
    ∀ (st : St) (cid u : Nat) (stats : StatsInput) (conn : Connection),
      findConn st cid = some conn → conn.userId = u →
      ((conn.status ≠ ConnStatus.connected →
          updateStats st cid stats u
            = (st, some "Failed to update stats: Connection is not active")) ∧
       (conn.status = ConnStatus.connected →
          (updateStats st cid stats u).2 = none ∧
          ∀ up dn : Int, stats.upload = some up → stats.download = some dn →
            0 ≤ up → 0 ≤ dn →
            ∃ c, findConn (updateStats st cid stats u).1 cid = some c ∧
              c.upload = conn.upload + up ∧ c.download = conn.download + dn ∧
              c.total = conn.upload + up + (conn.download + dn))) := by
  intro st cid u stats conn hf hu
  have hbne : (conn.userId != u) = false := by simp [hu]
  constructor
  · intro hne
    have hsne : (conn.status != ConnStatus.connected) = true := by simp [hne]
    simp only [updateStats, hf, hbne, hsne]
    simp
  · intro hc
    obtain ⟨c, hres, hcid, hbytes, _⟩ := updateStats_connected st cid u stats conn hf hu hc
    constructor
    · rw [hres]
    · intro up dn hup hdn _ _
      have h2 : (stats.upload.isSome || stats.download.isSome) = true := by simp [hup]
      obtain ⟨hcu, hcd, hct⟩ := hbytes h2
      refine ⟨c, ?_, ?_, ?_, ?_⟩
      · rw [hres]
        simp only [findConn_setConn, hf, Option.map_some]
        rw [hcid]
        simp
      · rw [hcu, hup]
        rfl
      · rw [hcd, hdn]
        rfl
      · rw [hct, hup, hdn]
        rfl

/-- C8: witness instantiating the theorem on a connected session holding
totals (100, 200, 300) and deltas (5, 7), and on a disconnected session
where the call fails and the state is untouched. -/
theorem updateStats_adds_bytes_witness :
    (cConn2.status = ConnStatus.connected ∧
      (updateStats stMetrics 1 statsBytes 2).2 = none ∧
      (∃ c, findConn (updateStats stMetrics 1 statsBytes 2).1 1 = some c ∧
        c.upload = cConn2.upload + 5 ∧ c.download = cConn2.download + 7 ∧
        c.total = cConn2.upload + 5 + (cConn2.download + 7))) ∧
    (cDis2.status ≠ ConnStatus.connected ∧
      updateStats stMetricsDis 1 statsBytes 2
        = (stMetricsDis, some "Failed to update stats: Connection is not active")) := by
  constructor
  · refine ⟨rfl, ?_, ?_⟩
    · exact ((updateStats_adds_bytes stMetrics 1 2 statsBytes cConn2 rfl rfl).2 rfl).1
    · exact ((updateStats_adds_bytes stMetrics 1 2 statsBytes cConn2 rfl rfl).2 rfl).2
        5 7 rfl rfl (by decide) (by decide)
  · refine ⟨by decide, ?_⟩
    exact (updateStats_adds_bytes stMetricsDis 1 2 statsBytes cDis2 rfl rfl).1 (by decide)

lemma connect_succeeds (st : St) (u sid : Nat) (now : Int) (server : Server)
    (hs : findServer st sid = some server)
    (havail : server.isAvailable = true)
    (hact : findActiveByUser st u = none)
    (hcap : (getServerConnectionsCount st sid : ℚ) < (server.maxUsers : ℚ) * (95 / 100)) :
    connect st u sid now = .ok { st with
      conns := st.conns ++ [newConn st.nextId u server.sid now],
      nextId := st.nextId + 1 } := by
  have hactv : server.active = true := active_of_isAvailable havail
  simp [connect, hs, hactv, havail, hact, not_le.mpr hcap]

lemma connect_succeeds_super (st : St) (u sid : Nat) (now : Int) (server : Server)
    (ac : Connection) (st1 : St)
    (hs : findServer st sid = some server)
    (havail : server.isAvailable = true)
    (hact : findActiveByUser st u = some ac)
    (hd : disconnect st ac.cid none now = .ok st1)
    (hcap : (getServerConnectionsCount st1 sid : ℚ) < (server.maxUsers : ℚ) * (95 / 100)) :
    connect st u sid now = .ok { st1 with
      conns := st1.conns ++ [newConn st1.nextId u server.sid now],
      nextId := st1.nextId + 1 } := by
  have hactv : server.active = true := active_of_isAvailable havail
  simp [connect, hs, hactv, havail, hact, hd, not_le.mpr hcap]

lemma connect_at_capacity (st : St) (u sid : Nat) (now : Int) (server : Server)
    (hs : findServer st sid = some server)
    (havail : server.isAvailable = true)
    (hact : findActiveByUser st u = none)
    (hcap : (server.maxUsers : ℚ) * (95 / 100) ≤ (getServerConnectionsCount st sid : ℚ)) :
    connect st u sid now = .error "Connection failed: Server is at capacity" := by
  have hactv : server.active = true := active_of_isAvailable havail
  simp [connect, hs, hactv, havail, hact, hcap]

lemma connect_not_available (st : St) (u sid : Nat) (now : Int) (server : Server)
    (hs : findServer st sid = some server)
    (hactv : server.active = true)
    (hnavail : server.isAvailable = false) :
    connect st u sid now
      = .error "Connection failed: Server is not available for new connections" := by
  simp [connect, hs, hactv, hnavail]

lemma connect_ok_inv (st : St) (u sid : Nat) (now : Int) (st' : St)
    (h : connect st u sid now = .ok st') :
    ∃ server st1,
      findServer st sid = some server ∧ server.isAvailable = true ∧
      ((findActiveByUser st u = none ∧ st1 = st) ∨
        (∃ ac, findActiveByUser st u = some ac ∧ disconnect st ac.cid none now = .ok st1)) ∧
      ((getServerConnectionsCount st1 sid : ℚ) < (server.maxUsers : ℚ) * (95 / 100)) ∧
      st' = { st1 with
        conns := st1.conns ++ [newConn st1.nextId u server.sid now],
        nextId := st1.nextId + 1 } := by
  unfold connect at h
  split at h
  · exact absurd h (by simp)
  · next server heq =>
    split at h
    · exact absurd h (by simp)
    · split at h
      · exact absurd h (by simp)
      · next hnavail =>
        have havail : server.isAvailable = true := by
          simpa using hnavail
        split at h
        · next ac hact =>
          simp only [] at h
          split at h
          · exact absurd h (by simp)
          · next st1 hd =>
            split at h
            · exact absurd h (by simp)
            · next hcap =>
              refine ⟨server, st1, heq, havail, Or.inr ⟨ac, hact, hd⟩, not_le.mp hcap, ?_⟩
              injection h with h'
              exact h'.symm
        · next hact =>
          simp only [] at h
          split at h
          · exact absurd h (by simp)
          · next hcap =>
            refine ⟨server, st, heq, havail, Or.inl ⟨hact, rfl⟩, not_le.mp hcap, ?_⟩
            injection h with h'
            exact h'.symm

/-- C2 (amended): Connect admits a session only when the server is
active, strictly healthy, under its hard user cap and load cap, and the
live count of sessions in {connecting, connected} on the node is below
0.95 x maxUsers; admission appends one connecting session (raising that
count by one) while leaving the server occupancy counter untouched, and
a count at or above the threshold yields the at-capacity error. On a
node with nine active sessions out of ten slots, of two successive
Connect calls exactly one succeeds. -/
theorem connect_admission :
    (∀ (st : St) (u sid : Nat) (now : Int) (server : Server),
      findServer st sid = some server → findActiveByUser st u = none →
      ((server.isAvailable = true →
          (((getServerConnectionsCount st sid : ℚ) < (server.maxUsers : ℚ) * (95 / 100) →
            ∃ st', connect st u sid now = .ok st' ∧
              getServerConnectionsCount st' sid = getServerConnectionsCount st sid + 1 ∧
              st'.servers = st.servers) ∧
          ((server.maxUsers : ℚ) * (95 / 100) ≤ (getServerConnectionsCount st sid : ℚ) →
            connect st u sid now = .error "Connection failed: Server is at capacity"))) ∧
       (server.active = true → server.isAvailable = false →
          connect st u sid now
            = .error "Connection failed: Server is not available for new connections"))) ∧
    (∃ stA, connect stNine 100 1 0 = .ok stA ∧
      connect stA 101 1 5 = .error "Connection failed: Server is at capacity") := by
  constructor
  · intro st u sid now server hs hact
    constructor
    · intro havail
      constructor
      · intro hcap
        refine ⟨_, connect_succeeds st u sid now server hs havail hact hcap, ?_, rfl⟩
        have hsid : server.sid = sid := by simpa using List.find?_some hs
        unfold getServerConnectionsCount
        simp [List.filter_append, newConn, isActiveStatus, hsid]
      · intro hcap
        exact connect_at_capacity st u sid now server hs havail hact hcap
    · intro hactv hnavail
      exact connect_not_available st u sid now server hs hactv hnavail
  · refine ⟨_, connect_succeeds stNine 100 1 0 srvA9 rfl rfl rfl ?_, ?_⟩
    · rw [show getServerConnectionsCount stNine 1 = 9 from rfl]
      norm_num [srvA9]
    · refine connect_at_capacity _ 101 1 5 srvA9 ?_ ?_ ?_ ?_
      · rfl
      · rfl
      · rfl
      · rw [show getServerConnectionsCount { stNine with
              conns := stNine.conns ++ [newConn stNine.nextId 100 srvA9.sid 0],
              nextId := stNine.nextId + 1 } 1 = 10 from rfl]
        norm_num [srvA9]

/-- C2: counterexample. On an active degraded server (health not
offline) with zero occupancy, Connect fails with the unavailability
error instead of reserving, and on a healthy server a successful Connect
leaves the occupancy counter unchanged instead of incrementing it. -/
theorem reserve_health_counterexample :
    srvDeg.healthStatus ≠ HealthStatus.offline ∧
    ((getServerConnectionsCount stDeg 1 : ℚ) < (srvDeg.maxUsers : ℚ) * (95 / 100)) ∧
    connect stDeg 5 1 0
      = .error "Connection failed: Server is not available for new connections" ∧
    (∃ st', connect stIdle 5 1 0 = .ok st' ∧
      (findServer st' 1).map (fun s => s.currentUsers) = some 0) := by
  refine ⟨by decide, ?_, ?_, ?_⟩
  · rw [show getServerConnectionsCount stDeg 1 = 0 from rfl]
    norm_num [srvDeg]
  · exact connect_not_available stDeg 5 1 0 srvDeg rfl rfl rfl
  · refine ⟨_, connect_succeeds stIdle 5 1 0 srvA rfl rfl rfl ?_, rfl⟩
    rw [show getServerConnectionsCount stIdle 1 = 0 from rfl]
    norm_num [srvA]

lemma capIdle : (getServerConnectionsCount stIdle 1 : ℚ) < (srvA.maxUsers : ℚ) * (95 / 100) := by
  rw [show getServerConnectionsCount stIdle 1 = 0 from rfl]
  norm_num [srvA]

/-- C2: witness instantiating the admission theorem on the idle healthy
server. -/
theorem connect_admission_witness :
    findServer stIdle 1 = some srvA ∧ findActiveByUser stIdle 5 = none ∧
    srvA.isAvailable = true ∧
    (∃ st', connect stIdle 5 1 0 = .ok st' ∧
      getServerConnectionsCount st' 1 = getServerConnectionsCount stIdle 1 + 1 ∧
      st'.servers = stIdle.servers) :=
  ⟨rfl, rfl, rfl, ((connect_admission.1 stIdle 5 1 0 srvA rfl rfl).1 rfl).1 capIdle⟩

/-- C7 (amended): Disconnect fails with the access-denied error whenever
the requesting client does not own the session, but on an already
terminal (disconnected or error) session it is not a no-op: the session
is re-marked disconnected and the server counter is decremented again. -/
theorem disconnect_ownership_and_terminal :
    (∀ (st : St) (cid uu : Nat) (now : Int) (conn : Connection),
      findConn st cid = some conn → conn.userId ≠ uu →
      disconnect st cid (some uu) now = .error "Disconnection failed: Access denied") ∧
    (∀ (st : St) (cid : Nat) (now : Int) (conn : Connection) (server : Server),
      findConn st cid = some conn →
      (conn.status = ConnStatus.disconnected ∨ conn.status = ConnStatus.error) →
      findServer st conn.serverId = some server →
      ∃ st', disconnect st cid none now = .ok st' ∧
        (findServer st' conn.serverId).map (fun s => s.currentUsers)
          = some (server.currentUsers - 1) ∧
        (findConn st' cid).map (fun c => c.status) = some ConnStatus.disconnected) := by
  constructor
  · intro st cid uu now conn hf hne
    have hb : (conn.userId != uu) = true := by simp [hne]
    simp only [disconnect, hf, hb]
    simp
  · intro st cid now conn server hf _ hserver
    refine ⟨_, disconnect_found st cid none now conn hf rfl, ?_, ?_⟩
    · rw [findServer_updServer_keep]
      · rw [findServer_setConn, hserver]
        have : server.sid = conn.serverId := by simpa using List.find?_some hserver
        simp [this]
      · intro s
        rfl
    · rw [findConn_updServer, findConn_setConn, hf]
      have hcid : conn.cid = cid := by simpa using List.find?_some hf
      simp

/-- C7: witness instantiating the theorem: a foreign client is denied,
and a second disconnect of the already disconnected session decrements
the counter from 3 to 2. -/
theorem disconnect_ownership_and_terminal_witness :
    (cConn7.userId ≠ 9 ∧
      disconnect stOneConnected 1 (some 9) 100
        = .error "Disconnection failed: Access denied") ∧
    (cDisced7.status = ConnStatus.disconnected ∧
      ∃ st', disconnect stTerminal 1 none 500 = .ok st' ∧
        (findServer st' cDisced7.serverId).map (fun s => s.currentUsers)
          = some (srvA3.currentUsers - 1) ∧
        (findConn st' 1).map (fun c => c.status) = some ConnStatus.disconnected) :=
  ⟨⟨by decide,
    disconnect_ownership_and_terminal.1 stOneConnected 1 9 100 cConn7 rfl (by decide)⟩,
   ⟨rfl,
    disconnect_ownership_and_terminal.2 stTerminal 1 500 cDisced7 srvA3 rfl (Or.inl rfl) rfl⟩⟩

/-- C5: counterexample. A connecting session with no external
confirmation is settled to connected by the fixed-delay callback; it
never becomes `timeout`, and the node occupancy increases by one rather
than decreasing. -/
theorem connecting_settles_to_connected :
    (findConn (settle stConnecting 1) 1).map (fun c => c.status) = some ConnStatus.connected ∧
    (findConn (settle stConnecting 1) 1).map (fun c => c.status) ≠ some ConnStatus.timeout ∧
    (findServer (settle stConnecting 1) 1).map (fun s => s.currentUsers) = some 1 := by
  refine ⟨rfl, ?_, rfl⟩
  intro h
  rw [show (findConn (settle stConnecting 1) 1).map (fun c => c.status)
        = some ConnStatus.connected from rfl] at h
  simp at h

lemma countP_map_replace (l : List Connection) (p : Connection → Bool) (tgt : Nat)
    (c : Connection) (hc : p c = false) :
    (l.map (fun x => if x.cid == tgt then c else x)).countP p
      = l.countP (fun x => !(x.cid == tgt) && p x) := by
  induction l with
  | nil => rfl
  | cons a t ih =>
    simp only [List.map_cons, List.countP_cons, ih]
    by_cases h : a.cid == tgt
    · simp [h, hc]
    · simp [h]

lemma countP_excl_eq_zero (l : List Connection) (p : Connection → Bool) (ac : Connection)
    (k : Nat) (hmem : ac ∈ l) (hpac : p ac = true) (hk : ac.cid = k)
    (hle : l.countP p ≤ 1) :
    l.countP (fun x => !(x.cid == k) && p x) = 0 := by
  induction l with
  | nil => cases hmem
  | cons a t ih =>
    rw [List.countP_cons] at hle ⊢
    rcases List.mem_cons.mp hmem with rfl | hmem'
    · have hle' : t.countP p = 0 := by
        rw [if_pos hpac] at hle
        omega
      have hq : t.countP (fun x => !(x.cid == k) && p x) = 0 := by
        rw [List.countP_eq_zero]
        intro x hx
        have hpx : ¬ p x = true := List.countP_eq_zero.mp hle' x hx
        simp [hpx]
      rw [hq]
      simp [← hk]
    · by_cases hpa : p a = true
      · exfalso
        have hpos : 0 < t.countP p := List.countP_pos_iff.mpr ⟨ac, hmem', hpac⟩
        rw [if_pos hpa] at hle
        omega
      · have hpaf : p a = false := by simpa using hpa
        have ht := ih hmem' (by simpa [hpaf] using hle)
        simp [hpaf, ht]

lemma activeCount_eq_countP (st : St) (u : Nat) :
    activeCount st u = st.conns.countP (fun c => c.userId == u && isActiveStatus c.status) := by
  unfold activeCount
  rw [List.countP_eq_length_filter]

/-- C1 (amended): Connect supersedes only sessions the code counts as
active, namely those in {connecting, connected}: when Connect succeeds
for a client holding at most one active session, the client ends up with
exactly one active session, and a previously active session has been
transitioned to disconnected. Sessions in `disconnecting` are outside
this guarantee. -/
theorem connect_single_active :
    ∀ (st : St) (u sid : Nat) (now : Int) (st' : St),
      activeCount st u ≤ 1 →
      connect st u sid now = .ok st' →
      activeCount st' u = 1 ∧
      (∀ ac, findActiveByUser st u = some ac →
        (findConn st' ac.cid).map (fun c => c.status) = some ConnStatus.disconnected) := by
  intro st u sid now st' hle hok
  obtain ⟨server, st1, hs, _, hstep, _, hst'⟩ := connect_ok_inv st u sid now st' hok
  rcases hstep with ⟨hact, heqst⟩ | ⟨ac, hact, hd⟩
  · rw [heqst] at hst'
    have hact' : st.conns.find? (fun c => c.userId == u && isActiveStatus c.status) = none :=
      hact
    have h0 : st.conns.countP (fun c => c.userId == u && isActiveStatus c.status) = 0 := by
      rw [List.countP_eq_zero]
      exact fun c hc => List.find?_eq_none.mp hact' c hc
    constructor
    · rw [hst', activeCount_eq_countP]
      simp only [List.countP_append, h0, List.countP_cons]
      simp [newConn, isActiveStatus]
    · intro ac hac
      rw [hact] at hac
      cases hac
  · obtain ⟨y, hy, hst1⟩ := disconnect_ok_inv st ac.cid none now st1 hd
    have hy' : st.conns.find? (fun c => c.cid == ac.cid) = some y := hy
    have hyc : y.cid = ac.cid := by simpa using List.find?_some hy'
    have hact' : st.conns.find? (fun c => c.userId == u && isActiveStatus c.status)
        = some ac := hact
    have hacmem : ac ∈ st.conns := List.mem_of_find?_eq_some hact'
    have hacp := @List.find?_some Connection
      (fun c => c.userId == u && isActiveStatus c.status) ac st.conns hact'
    have hle' : st.conns.countP (fun c => c.userId == u && isActiveStatus c.status) ≤ 1 := by
      rw [← activeCount_eq_countP]
      exact hle
    have hcount1 : st1.conns.countP (fun c => c.userId == u && isActiveStatus c.status) = 0 := by
      rw [hst1, conns_updServer, conns_setConn, countP_map_replace]
      · exact countP_excl_eq_zero st.conns _ ac _ hacmem hacp hyc.symm hle'
      · simp [isActiveStatus]
    constructor
    · rw [hst', activeCount_eq_countP]
      simp only [List.countP_append, hcount1, List.countP_cons]
      simp [newConn, isActiveStatus]
    · intro ac2 hac2
      rw [hact] at hac2
      injection hac2 with he
      rw [← he]
      rw [hst']
      unfold findConn
      have hconns : ({ st1 with
          conns := st1.conns ++ [newConn st1.nextId u server.sid now],
          nextId := st1.nextId + 1 } : St).conns
          = st1.conns ++ [newConn st1.nextId u server.sid now] := rfl
      rw [hconns, List.find?_append]
      have hfirst : st1.conns.find? (fun c => c.cid == ac.cid) = some { y with
          status := ConnStatus.disconnected, endTime := some now,
          duration := some (Int.fdiv (now - y.startTime) 1000) } := by
        rw [hst1, conns_updServer, conns_setConn]
        rw [find?_map_stable]
        · rw [hy']
          simp [hyc]
        · intro x
          by_cases hx : x.cid == y.cid
          · have hxc : x.cid = y.cid := by simpa using hx
            simp [hx, hxc]
          · simp [hx]
      rw [hfirst]
      simp

/-- C1: counterexample. A client holding a `disconnecting` session (a
non-terminal state in the sense of the claim) is not superseded: Connect
leaves that session in `disconnecting` and creates a second session, so
two sessions of the client sit in non-terminal states at once. -/
theorem nonterminal_supersession_counterexample :
    nonTerminalCount stDiscing 7 = 1 ∧
    ∃ st', connect stDiscing 7 1 0 = .ok st' ∧
      nonTerminalCount st' 7 = 2 ∧
      (findConn st' 1).map (fun c => c.status) = some ConnStatus.disconnecting :=
  ⟨rfl, _,
   connect_succeeds stDiscing 7 1 0 srvA rfl rfl rfl
     (by rw [show getServerConnectionsCount stDiscing 1 = 0 from rfl]; norm_num [srvA]),
   rfl, rfl⟩

lemma connect_super_example : connect stOneConnected 7 1 5000 = .ok stAfterSuper := by
  have hcap : (getServerConnectionsCount stHalf 1 : ℚ) < (srvA1.maxUsers : ℚ) * (95 / 100) := by
    rw [show getServerConnectionsCount stHalf 1 = 0 from rfl]
    norm_num [srvA1]
  have h := connect_succeeds_super stOneConnected 7 1 5000 srvA1 cConn7 stHalf
    rfl rfl rfl rfl hcap
  exact h

lemma lexLt_iff (a b : Server) :
    lexLt a b ↔ toLex (a.load, toLex (a.ping, a.currentUsers))
      < toLex (b.load, toLex (b.ping, b.currentUsers)) := by
  unfold lexLt
  rw [Prod.Lex.lt_iff, Prod.Lex.lt_iff]

lemma lexLt_irrefl (a : Server) : ¬ lexLt a a := by
  rw [lexLt_iff]
  exact lt_irrefl _

lemma lexLt_asymm {a b : Server} (h : lexLt a b) : ¬ lexLt b a := by
  rw [lexLt_iff] at *
  exact lt_asymm h

lemma lexLe_trans {a b c : Server} (h1 : ¬ lexLt b a) (h2 : ¬ lexLt c b) : ¬ lexLt c a := by
  rw [lexLt_iff] at *
  intro h3
  exact h1 (lt_of_le_of_lt (le_of_not_lt h2) h3)

lemma foldl_pickBetter_min (cs : List Server) :
    ∀ (acc : Option Server) (r : Server), cs.foldl pickBetter acc = some r →
      (acc = some r ∨ r ∈ cs) ∧ (∀ t ∈ cs, ¬ lexLt t r) ∧
      (∀ b, acc = some b → ¬ lexLt b r) := by
  induction cs with
  | nil =>
    intro acc r h
    simp only [List.foldl_nil] at h
    refine ⟨Or.inl h, by simp, ?_⟩
    intro b hb
    rw [h] at hb
    injection hb with he
    rw [he]
    exact lexLt_irrefl b
  | cons a t ih =>
    intro acc r h
    rw [List.foldl_cons] at h
    obtain ⟨hmem, hall, hacc⟩ := ih (pickBetter acc a) r h
    have hnota : ¬ lexLt a r := by
      cases acc with
      | none => exact hacc a rfl
      | some b =>
        by_cases hab : lexLt a b
        · exact hacc a (by simp [pickBetter, hab])
        · exact lexLe_trans (hacc b (by simp [pickBetter, hab])) hab
    refine ⟨?_, ?_, ?_⟩
    · rcases hmem with hm | hm
      · cases acc with
        | none =>
          right
          have hm' : some a = some r := by simpa [pickBetter] using hm
          injection hm' with he
          rw [← he]
          exact List.mem_cons_self a t
        | some b =>
          by_cases hab : lexLt a b
          · right
            have hm' : some a = some r := by simpa [pickBetter, hab] using hm
            injection hm' with he
            rw [← he]
            exact List.mem_cons_self a t
          · left
            have hm' : some b = some r := by simpa [pickBetter, hab] using hm
            exact hm'
      · right
        exact List.mem_cons_of_mem a hm
    · intro t' ht'
      rcases List.mem_cons.mp ht' with rfl | ht2
      · exact hnota
      · exact hall t' ht2
    · intro b hb
      subst hb
      by_cases hab : lexLt a b
      · exact lexLe_trans (hacc a (by simp [pickBetter, hab])) (lexLt_asymm hab)
      · exact hacc b (by simp [pickBetter, hab])

/-- C4 (amended): for candidates with positive ping, load within [0,100]
and occupancy at most capacity, the code score equals the spec formula
rounded half-up to an integer; the ping component degenerates to 50 only
at ping 0. The selection itself ignores the score: getOptimalServer
returns a member of the candidate list minimal in the lexicographic
(load, ping, occupancy) order. -/
theorem score_and_selection :
    (∀ s : Server, 0 < s.ping → 0 ≤ s.load → s.load ≤ 100 →
      (s.currentUsers : ℚ) ≤ (s.maxUsers : ℚ) → 0 < s.maxUsers →
      calculateServerScore s = jsRound (specScore s)) ∧
    (∀ (cs : List Server) (r : Server), getOptimalServer cs = .ok r →
      r ∈ cs ∧ ∀ t ∈ cs, ¬ lexLt t r) := by
  constructor
  · intro s hping hl0 hl100 hocc hmax
    have hl : max 0 (100 - s.load) = 100 - s.load := max_eq_right (by linarith)
    have hmq : (0:ℚ) < (s.maxUsers:ℚ) := by exact_mod_cast hmax
    have hratio : (s.currentUsers:ℚ) / (s.maxUsers:ℚ) ≤ 1 := (div_le_one hmq).mpr hocc
    have hc : max 0 (100 - ((s.currentUsers:ℚ) / (s.maxUsers:ℚ)) * 100)
        = 100 - ((s.currentUsers:ℚ) / (s.maxUsers:ℚ)) * 100 := max_eq_right (by nlinarith)
    by_cases hp : s.ping ≤ 200
    · have h1 : min s.ping 200 = s.ping := min_eq_left hp
      have h2 : max 0 (100 - s.ping / 2) = 100 - s.ping / 2 := max_eq_right (by linarith)
      simp only [calculateServerScore, specScore]
      rw [if_pos hping, hl, h2, hc, h1]
      congr 1
      ring
    · have hp' : (200:ℚ) < s.ping := lt_of_not_le hp
      have h1 : min s.ping 200 = 200 := min_eq_right (le_of_lt hp')
      have h2 : max 0 (100 - s.ping / 2) = 0 := max_eq_left (by linarith)
      simp only [calculateServerScore, specScore]
      rw [if_pos hping, hl, h2, hc, h1]
      congr 1
      ring
  · intro cs r h
    unfold getOptimalServer at h
    cases hf : cs.foldl pickBetter none with
    | none =>
      rw [hf] at h
      cases h
    | some s =>
      rw [hf] at h
      injection h with he
      obtain ⟨hmem, hall, _⟩ := foldl_pickBetter_min cs none s hf
      rcases hmem with hm | hm
      · cases hm
      · rw [← he]
        exact ⟨hm, hall⟩

/-- C4: counterexample. At ping 0 the code scores the ping component 50
while the spec formula gives 100, so the scores differ (80 against 100);
and the selection returns the lowest-load candidate even though the other
candidate has the strictly higher score under both the code scoring and
the spec formula. -/
theorem score_selection_counterexample :
    calculateServerScore s4z ≠ jsRound (specScore s4z) ∧
    getOptimalServer [s4a, s4b] = .ok s4a ∧
    calculateServerScore s4a < calculateServerScore s4b ∧
    jsRound (specScore s4a) < jsRound (specScore s4b) := by
  have hz : calculateServerScore s4z = 80 := by
    simp only [calculateServerScore, jsRound, s4z]
    norm_num [max_def, min_def]
  have hzs : jsRound (specScore s4z) = 100 := by
    simp only [specScore, jsRound, s4z]
    norm_num [max_def, min_def]
  have ha : calculateServerScore s4a = 42 := by
    simp only [calculateServerScore, jsRound, s4a]
    norm_num [max_def, min_def]
  have hb : calculateServerScore s4b = 94 := by
    simp only [calculateServerScore, jsRound, s4b]
    norm_num [max_def, min_def]
  have has : jsRound (specScore s4a) = 42 := by
    simp only [specScore, jsRound, s4a]
    norm_num [max_def, min_def]
  have hbs : jsRound (specScore s4b) = 94 := by
    simp only [specScore, jsRound, s4b]
    norm_num [max_def, min_def]
  exact ⟨by rw [hz, hzs]; decide, rfl, by rw [ha, hb]; decide, by rw [has, hbs]; decide⟩

/-- C4: witness instantiating the theorem on a server with nonzero ping
and on the two-candidate selection. -/
theorem score_and_selection_witness :
    ((0:ℚ) < s4w.ping ∧ (0:ℚ) ≤ s4w.load ∧ s4w.load ≤ 100 ∧
      (s4w.currentUsers : ℚ) ≤ (s4w.maxUsers : ℚ) ∧ 0 < s4w.maxUsers ∧
      calculateServerScore s4w = jsRound (specScore s4w)) ∧
    (getOptimalServer [s4a, s4b] = .ok s4a ∧ s4a ∈ [s4a, s4b] ∧
      ∀ t ∈ [s4a, s4b], ¬ lexLt t s4a) :=
  ⟨⟨by decide, by decide, by decide, by decide, by decide,
    score_and_selection.1 s4w (by decide) (by decide) (by decide) (by decide) (by decide)⟩,
   rfl, (score_and_selection.2 [s4a, s4b] s4a rfl).1,
   (score_and_selection.2 [s4a, s4b] s4a rfl).2⟩

lemma timeoutFree_setConn (st : St) (c : Connection) (h : timeoutFree st)
    (hc : c.status ≠ ConnStatus.timeout) : timeoutFree (setConn st c) := by
  intro x hx
  rw [conns_setConn] at hx
  rcases List.mem_map.mp hx with ⟨y, hy, rfl⟩
  by_cases hk : y.cid == c.cid
  · simpa [hk] using hc
  · simpa [hk] using h y hy

lemma timeoutFree_updServer (st : St) (sid : Nat) (f : Server → Server)
    (h : timeoutFree st) : timeoutFree (updServer st sid f) := by
  intro x hx
  rw [conns_updServer] at hx
  exact h x hx

lemma timeoutFree_conns_eq (st st' : St) (hc : st'.conns = st.conns)
    (h : timeoutFree st) : timeoutFree st' := by
  intro x hx
  rw [hc] at hx
  exact h x hx

lemma timeoutFree_disconnect (st : St) (cid : Nat) (uOpt : Option Nat) (now : Int) (st' : St)
    (hd : disconnect st cid uOpt now = .ok st') (h : timeoutFree st) : timeoutFree st' := by
  obtain ⟨conn, _, hst'⟩ := disconnect_ok_inv st cid uOpt now st' hd
  rw [hst']
  exact timeoutFree_updServer _ _ _ (timeoutFree_setConn st _ h (by simp))

lemma timeoutFree_connect (st : St) (u sid : Nat) (now : Int) (st' : St)
    (hok : connect st u sid now = .ok st') (h : timeoutFree st) : timeoutFree st' := by
  obtain ⟨server, st1, _, _, hstep, _, hst'⟩ := connect_ok_inv st u sid now st' hok
  have h1 : timeoutFree st1 := by
    rcases hstep with ⟨_, heq⟩ | ⟨ac, _, hd⟩
    · rw [heq]
      exact h
    · exact timeoutFree_disconnect st ac.cid none now st1 hd h
  rw [hst']
  intro x hx
  have hx' : x ∈ st1.conns ++ [newConn st1.nextId u server.sid now] := hx
  rcases List.mem_append.mp hx' with hx1 | hx1
  · exact h1 x hx1
  · rcases List.mem_cons.mp hx1 with rfl | hx2
    · simp [newConn]
    · cases hx2

lemma timeoutFree_settle (st : St) (cid : Nat) (h : timeoutFree st) :
    timeoutFree (settle st cid) := by
  unfold settle
  split
  · exact h
  · exact timeoutFree_updServer _ _ _ (timeoutFree_setConn st _ h (by simp))

lemma timeoutFree_modelDisconnect (st : St) (cid : Nat) (now : Int) (h : timeoutFree st) :
    timeoutFree (modelDisconnect st cid now) := by
  unfold modelDisconnect
  split
  · exact h
  · split
    · exact timeoutFree_setConn st _ h (by simp)
    · exact h

lemma timeoutFree_markError (st : St) (cid : Nat) (code : String) (now : Int)
    (h : timeoutFree st) : timeoutFree (markError st cid code now) := by
  unfold markError
  split
  · exact h
  · exact timeoutFree_setConn st _ h (by simp)

lemma timeoutFree_updateStats (st : St) (cid : Nat) (stats : StatsInput) (u : Nat)
    (h : timeoutFree st) : timeoutFree (updateStats st cid stats u).1 := by
  unfold updateStats
  split
  · exact h
  · next conn hf =>
    split
    · exact h
    · split
      · exact h
      · have hf' : st.conns.find? (fun c => c.cid == cid) = some conn := hf
        have hconn : conn.status ≠ ConnStatus.timeout :=
          h conn (List.mem_of_find?_eq_some hf')
        apply timeoutFree_setConn st _ h
        by_cases h1 :
            (stats.uploadSpeed.isSome || stats.downloadSpeed.isSome || stats.ping.isSome) = true
          <;> by_cases h2 : (stats.upload.isSome || stats.download.isSome) = true
          <;> simp [h1, h2, hconn]

/-- C5 (amended): no operation of the service ever assigns the timeout
status to a session; a connecting session that receives no external
signal is settled to connected by the fixed-delay callback, and the node
occupancy increases by one at that moment. -/
theorem no_timeout_state :
    (∀ (st : St) (op : Op), timeoutFree st → timeoutFree (applyOp st op)) ∧
    (∀ (st : St) (cid : Nat) (conn : Connection) (server : Server),
      findConn st cid = some conn → findServer st conn.serverId = some server →
      (findConn (settle st cid) cid).map (fun c => c.status) = some ConnStatus.connected ∧
      (findServer (settle st cid) conn.serverId).map (fun s => s.currentUsers)
        = some (server.currentUsers + 1)) := by
  constructor
  · intro st op h
    cases op with
    | opConnect u sid now =>
      cases hc : connect st u sid now with
      | error e => simpa [applyOp, Except.toOption, hc] using h
      | ok st' =>
        simpa [applyOp, Except.toOption, hc] using timeoutFree_connect st u sid now st' hc h
    | opDisconnect cid uo now =>
      cases hc : disconnect st cid uo now with
      | error e => simpa [applyOp, Except.toOption, hc] using h
      | ok st' =>
        simpa [applyOp, Except.toOption, hc] using
          timeoutFree_disconnect st cid uo now st' hc h
    | opSettle cid => exact timeoutFree_settle st cid h
    | opModelDisconnect cid now => exact timeoutFree_modelDisconnect st cid now h
    | opMarkError cid code now => exact timeoutFree_markError st cid code now h
    | opUpdateStats cid stats u => exact timeoutFree_updateStats st cid stats u h
    | opHealthSweep sid o =>
      cases o with
      | ok ih ld pg => exact timeoutFree_conns_eq _ _ (conns_usm_getD st sid _) h
      | failed => exact timeoutFree_conns_eq _ _ (conns_usm_getD st sid _) h
    | opUpdateMetrics sid m =>
      cases hc : updateServerMetrics st sid m with
      | error e => simpa [applyOp, Except.toOption, hc] using h
      | ok st' =>
        simpa [applyOp, Except.toOption, hc] using
          timeoutFree_conns_eq st st' (conns_updateServerMetrics st sid m st' hc) h
  · intro st cid conn server hf hs
    have hset : settle st cid
        = updServer (setConn st { conn with status := ConnStatus.connected })
            conn.serverId (fun s => { s with currentUsers := s.currentUsers + 1 }) := by
      simp only [settle, hf]
    constructor
    · rw [hset, findConn_updServer, findConn_setConn, hf]
      simp
    · rw [hset, findServer_updServer_keep]
      · rw [findServer_setConn, hs]
        have hs' : st.servers.find? (fun s => s.sid == conn.serverId) = some server := hs
        have hsid := List.find?_some hs'
        have : server.sid = conn.serverId := by simpa using hsid
        simp [this]
      · intro s
        rfl

/-- C5: witness instantiating the theorem: a settle step on the state
with one connecting session keeps the state free of timeout sessions,
marks the session connected, and raises the occupancy from 0 to 1. -/
theorem no_timeout_state_witness :
    timeoutFree stConnecting ∧
    timeoutFree (applyOp stConnecting (Op.opSettle 1)) ∧
    (findConn (settle stConnecting 1) 1).map (fun c => c.status) = some ConnStatus.connected ∧
    (findServer (settle stConnecting 1) 1).map (fun s => s.currentUsers)
      = some (srvA.currentUsers + 1) := by
  have htf : timeoutFree stConnecting := by
    unfold timeoutFree
    decide
  refine ⟨htf, no_timeout_state.1 stConnecting (Op.opSettle 1) htf, ?_, ?_⟩
  · exact (no_timeout_state.2 stConnecting 1 cConnecting7 srvA rfl rfl).1
  · exact (no_timeout_state.2 stConnecting 1 cConnecting7 srvA rfl rfl).2

/-- C1: witness instantiating the theorem on a client with one connected
session who reconnects: the old session ends disconnected and exactly one
active session remains. -/
theorem connect_single_active_witness :
    activeCount stOneConnected 7 ≤ 1 ∧
    activeCount stAfterSuper 7 = 1 ∧
    (findConn stAfterSuper 1).map (fun c => c.status) = some ConnStatus.disconnected :=
  ⟨by decide,
   (connect_single_active stOneConnected 7 1 5000 stAfterSuper (by decide)
      connect_super_example).1,
   (connect_single_active stOneConnected 7 1 5000 stAfterSuper (by decide)
      connect_super_example).2 cConn7 rfl⟩

end Fdvg
